import Mathlib

/-!
Verification of the UDP listener/demultiplexer of gortsplib
(`server_udp_listener.go`), shallowly embedded in Lean 4.

Bytes are modelled as `Nat`, IP addresses as byte lists (length 4 for
IPv4, length 16 for IPv6), Go `int` as `Int`, and Go slice `copy` as a
pure list operation with Go's min-length semantics.  Handlers (`readFunc`
values) are modelled by opaque identifiers of type `Nat`; invoking a
handler is recorded as an observable event rather than executed.
-/

/-- Go `copy(dst, src)`: copies `min (len dst) (len src)` bytes of `src`
into the front of `dst`, leaving the rest of `dst` unchanged, and models
the resulting contents of `dst`. -/
def goCopy (dst src : List Nat) : List Nat :=
  let n := min dst.length src.length
  src.take n ++ dst.drop n

/-- Go `copy(dst[ofs:], src)`: copies into `dst` starting at offset
`ofs`, modelling the resulting contents of `dst`. -/
def goCopyAt (dst : List Nat) (ofs : Nat) (src : List Nat) : List Nat :=
  dst.take ofs ++ goCopy (dst.drop ofs) src

/-- Fixed 12-byte IPv4-in-IPv6 mapping bytes written by `fill` for
4-byte addresses (the literal copied at line 59 of the source). -/
def v4InV6Pfx : List Nat := [0, 0, 0, 0, 0, 0, 0, 0, 0, 0, 0xff, 0xff]

/-- Go struct `clientAddr`: a 16-byte normalized address plus a port,
with structural (value) equality, as used for map keying. -/
structure clientAddr where
  ip : List Nat
  port : Int
deriving DecidableEq, Repr

/-- Go method `(p *clientAddr) fill(ip net.IP, port int)` (lines 55-64):
sets the port; if the raw IP has 4 bytes, copies the 12-byte prefix into
`p.ip[0:]` and the 4 address bytes into `p.ip[12:]`; otherwise copies the
raw IP into `p.ip[:]` verbatim. -/
def clientAddr.fill (p : clientAddr) (rawIP : List Nat) (port : Int) : clientAddr :=
  let p1 : clientAddr := { p with port := port }
  if rawIP.length = 4 then
    { p1 with ip := goCopyAt (goCopyAt p1.ip 0 v4InV6Pfx) 12 rawIP }
  else
    { p1 with ip := goCopyAt p1.ip 0 rawIP }

/-- Go zero value `var addr clientAddr`: a 16-byte zero array and port 0,
the receiver on which every call site of `fill` starts. -/
def zeroClientAddr : clientAddr :=
  { ip := [0, 0, 0, 0, 0, 0, 0, 0, 0, 0, 0, 0, 0, 0, 0, 0], port := 0 }

/-- Lookup in the Go map `clients` (`map[clientAddr]readFunc`), modelled
as an association list searched front to back. -/
def mapLookup (m : List (clientAddr × Nat)) (k : clientAddr) : Option Nat :=
  match m with
  | [] => none
  | (k1, v1) :: rest => if k1 = k then some v1 else mapLookup rest k

/-- Go map assignment `m[k] = v`: replaces the binding for `k` if
present, otherwise appends it. -/
def mapInsert (m : List (clientAddr × Nat)) (k : clientAddr) (v : Nat) :
    List (clientAddr × Nat) :=
  match m with
  | [] => [(k, v)]
  | (k1, v1) :: rest =>
    if k1 = k then (k, v) :: rest else (k1, v1) :: mapInsert rest k v

/-- Go `delete(m, k)`: removes the binding for `k` if present, a no-op
otherwise. -/
def mapDelete (m : List (clientAddr × Nat)) (k : clientAddr) :
    List (clientAddr × Nat) :=
  match m with
  | [] => []
  | (k1, v1) :: rest =>
    if k1 = k then rest else (k1, v1) :: mapDelete rest k

/-- Well-formedness of the association-list model of a Go map: each key
is bound at most once. -/
def keysNodup (m : List (clientAddr × Nat)) : Prop :=
  (m.map Prod.fst).Nodup

/-- The registry-relevant state of Go struct `serverUDPListener`: its
`clients` map.  Handlers are opaque `Nat` identifiers. -/
structure serverUDPListener where
  clients : List (clientAddr × Nat)
deriving DecidableEq

/-- Go method `addClient` (lines 216-224): builds the key with `fill` on
a zero-valued `clientAddr` and stores the callback in the map. -/
def serverUDPListener.addClient (u : serverUDPListener) (ip : List Nat)
    (port : Int) (cb : Nat) : serverUDPListener :=
  { u with clients := mapInsert u.clients (clientAddr.fill zeroClientAddr ip port) cb }

/-- Go method `removeClient` (lines 226-234): builds the key with `fill`
on a zero-valued `clientAddr` and deletes it from the map. -/
def serverUDPListener.removeClient (u : serverUDPListener) (ip : List Nat)
    (port : Int) : serverUDPListener :=
  { u with clients := mapDelete u.clients (clientAddr.fill zeroClientAddr ip port) }

/-- Observable outcome of one iteration of the receive loop. -/
inductive LoopStep
  /-- the read returned an error: the loop breaks -/
  | exited
  /-- a registered handler `cb` was invoked with `payload` -/
  | dispatched (cb : Nat) (payload : List Nat)
  /-- no handler was registered: the datagram was dropped -/
  | discarded
deriving DecidableEq, Repr

/-- One iteration of the `for` loop of `run` (lines 185-205).  The read
result is `none` for a read error, or `some (n, ip, port, buf)` where
`buf` is the full receive buffer and `n` the number of bytes read.  On
success the key is built by `fill` on a zero `clientAddr`, looked up in
`clients`, and the handler (if any) is invoked with `buf[:n]`. -/
def runIteration (u : serverUDPListener)
    (readResult : Option (Nat × List Nat × Int × List Nat)) : LoopStep :=
  match readResult with
  | none => .exited
  | some (n, ip, port, buf) =>
    match mapLookup u.clients (clientAddr.fill zeroClientAddr ip port) with
    | none => .discarded
    | some cb => .dispatched cb (buf.take n)

theorem fill_ipv4 (a : List Nat) (ha : a.length = 4) (p : Int) :
    clientAddr.fill zeroClientAddr a p = { ip := v4InV6Pfx ++ a, port := p } := by
  match a, ha with
  | [x, y, z, w], _ => rfl

theorem fill_ipv6 (b : List Nat) (hb : b.length = 16) (p : Int) :
    clientAddr.fill zeroClientAddr b p = { ip := b, port := p } := by
  match b, hb with
  | [x0, x1, x2, x3, x4, x5, x6, x7, x8, x9, x10, x11, x12, x13, x14, x15], _ => rfl

/-- C3: `fill(rawIP, port)` stores, for a 4-byte address, the fixed
12-byte IPv4-in-IPv6 mapping bytes followed by the 4 address bytes; for a
16-byte address, the address verbatim; and in every case sets the port
field to the given port. -/
theorem fill_spec (rawIP : List Nat) (port : Int) :
    (rawIP.length = 4 →
      clientAddr.fill zeroClientAddr rawIP port
        = { ip := v4InV6Pfx ++ rawIP, port := port })
    ∧ (rawIP.length = 16 →
      clientAddr.fill zeroClientAddr rawIP port = { ip := rawIP, port := port })
    ∧ (clientAddr.fill zeroClientAddr rawIP port).port = port := by
  refine ⟨fun h4 => fill_ipv4 rawIP h4 port, fun h16 => fill_ipv6 rawIP h16 port, ?_⟩
  unfold clientAddr.fill
  split <;> rfl

/-- Witness for `fill_spec` at a concrete IPv4 address and port. -/
theorem fill_spec_witness :
    clientAddr.fill zeroClientAddr [127, 0, 0, 1] 5000
      = { ip := v4InV6Pfx ++ [127, 0, 0, 1], port := 5000 } :=
  (fill_spec [127, 0, 0, 1] 5000).1 (by decide)

/-- C4: a 4-byte address and its IPv4-in-IPv6-mapped 16-byte form yield
the same key for any port. -/
theorem fill_v4mapped (a b : List Nat) (p : Int) (ha : a.length = 4)
    (hb : b = v4InV6Pfx ++ a) :
    clientAddr.fill zeroClientAddr a p = clientAddr.fill zeroClientAddr b p := by
  subst hb
  rw [fill_ipv4 a ha p, fill_ipv6 (v4InV6Pfx ++ a) (by simp [v4InV6Pfx, ha]) p]

/-- Witness for `fill_v4mapped` at 127.0.0.1 and its mapped form. -/
theorem fill_v4mapped_witness :
    clientAddr.fill zeroClientAddr [127, 0, 0, 1] 5000
      = clientAddr.fill zeroClientAddr (v4InV6Pfx ++ [127, 0, 0, 1]) 5000 :=
  fill_v4mapped [127, 0, 0, 1] (v4InV6Pfx ++ [127, 0, 0, 1]) 5000 (by decide) rfl

/-- C5 counterexample: the raw pairs `([127,0,0,1], 5000)` and
`(v4InV6Pfx ++ [127,0,0,1], 5000)` are distinct `(ip, port)` pairs, yet
`fill` builds the same key from both, so distinct pairs do not always
yield distinct keys. -/
theorem fill_inj_cex :
    ([127, 0, 0, 1], (5000 : Int)) ≠ (v4InV6Pfx ++ [127, 0, 0, 1], (5000 : Int))
    ∧ clientAddr.fill zeroClientAddr [127, 0, 0, 1] 5000
      = clientAddr.fill zeroClientAddr (v4InV6Pfx ++ [127, 0, 0, 1]) 5000 :=
  ⟨by decide, by rfl⟩

/-- C5 amended: for distinct `(ip, port)` pairs in which the two raw
addresses have the same length (both 4-byte or both 16-byte), the keys
built by `fill` are distinct. -/
theorem fill_inj_amended (a b : List Nat) (p q : Int)
    (hlen : (a.length = 4 ∧ b.length = 4) ∨ (a.length = 16 ∧ b.length = 16))
    (hne : ¬(a = b ∧ p = q)) :
    clientAddr.fill zeroClientAddr a p ≠ clientAddr.fill zeroClientAddr b q := by
  intro heq
  rcases hlen with ⟨ha, hb⟩ | ⟨ha, hb⟩
  · rw [fill_ipv4 a ha p, fill_ipv4 b hb q] at heq
    simp only [clientAddr.mk.injEq] at heq
    exact hne ⟨List.append_cancel_left heq.1, heq.2⟩
  · rw [fill_ipv6 a ha p, fill_ipv6 b hb q] at heq
    simp only [clientAddr.mk.injEq] at heq
    exact hne ⟨heq.1, heq.2⟩

/-- Witness for `fill_inj_amended` at two distinct IPv4 addresses. -/
theorem fill_inj_amended_witness :
    clientAddr.fill zeroClientAddr [127, 0, 0, 1] 5000
      ≠ clientAddr.fill zeroClientAddr [127, 0, 0, 2] 5000 :=
  fill_inj_amended [127, 0, 0, 1] [127, 0, 0, 2] 5000 5000
    (Or.inl ⟨by decide, by decide⟩) (by decide)

theorem mapLookup_insert_self (m : List (clientAddr × Nat)) (k : clientAddr)
    (v : Nat) : mapLookup (mapInsert m k v) k = some v := by
  induction m with
  | nil => simp [mapInsert, mapLookup]
  | cons hd tl ih =>
    obtain ⟨k1, v1⟩ := hd
    by_cases hk : k1 = k
    · simp [mapInsert, hk, mapLookup]
    · simp [mapInsert, hk, mapLookup, ih]

theorem mem_keys_mapInsert (m : List (clientAddr × Nat)) (k x : clientAddr)
    (v : Nat) (hx : x ∈ (mapInsert m k v).map Prod.fst) :
    x = k ∨ x ∈ m.map Prod.fst := by
  induction m with
  | nil => simpa [mapInsert] using hx
  | cons hd tl ih =>
    obtain ⟨k1, v1⟩ := hd
    by_cases hk : k1 = k
    · subst hk
      simpa [mapInsert] using hx
    · simp only [mapInsert, if_neg hk, List.map_cons, List.mem_cons] at hx
      rcases hx with h | h
      · exact Or.inr (by simp [h])
      · rcases ih h with h1 | h1
        · exact Or.inl h1
        · exact Or.inr (by simp [h1])

theorem keysNodup_mapInsert (m : List (clientAddr × Nat)) (k : clientAddr)
    (v : Nat) (h : keysNodup m) : keysNodup (mapInsert m k v) := by
  induction m with
  | nil => simp [keysNodup, mapInsert]
  | cons hd tl ih =>
    obtain ⟨k1, v1⟩ := hd
    simp only [keysNodup, List.map_cons, List.nodup_cons] at h
    by_cases hk : k1 = k
    · subst hk
      simpa [keysNodup, mapInsert, List.nodup_cons] using h
    · have htl := ih h.2
      simp only [keysNodup, mapInsert, if_neg hk, List.map_cons, List.nodup_cons]
      refine ⟨fun hmem => ?_, htl⟩
      rcases mem_keys_mapInsert tl k k1 v hmem with h1 | h1
      · exact hk h1
      · exact h.1 h1

theorem mapLookup_eq_none_of_not_mem (m : List (clientAddr × Nat))
    (k : clientAddr) (h : k ∉ m.map Prod.fst) : mapLookup m k = none := by
  induction m with
  | nil => rfl
  | cons hd tl ih =>
    obtain ⟨k1, v1⟩ := hd
    simp only [List.map_cons, List.mem_cons] at h
    push_neg at h
    have hne : ¬ k1 = k := fun he => h.1 he.symm
    simp [mapLookup, hne, ih h.2]

theorem mapLookup_mapDelete_self (m : List (clientAddr × Nat)) (k : clientAddr)
    (h : keysNodup m) : mapLookup (mapDelete m k) k = none := by
  induction m with
  | nil => rfl
  | cons hd tl ih =>
    obtain ⟨k1, v1⟩ := hd
    simp only [keysNodup, List.map_cons, List.nodup_cons] at h
    by_cases hk : k1 = k
    · subst hk
      simp only [mapDelete, if_pos rfl]
      exact mapLookup_eq_none_of_not_mem tl k1 h.1
    · simp [mapDelete, hk, mapLookup, ih h.2]

theorem mapDelete_of_lookup_none (m : List (clientAddr × Nat)) (k : clientAddr)
    (h : mapLookup m k = none) : mapDelete m k = m := by
  induction m with
  | nil => rfl
  | cons hd tl ih =>
    obtain ⟨k1, v1⟩ := hd
    by_cases hk : k1 = k
    · simp [mapLookup, hk] at h
    · simp only [mapLookup, if_neg hk] at h
      simp [mapDelete, hk, ih h]

/-- C6: on a registry whose keys are distinct, `addClient` keeps keys
distinct (at most one handler per key) and binds the key to the new
callback (last-write-wins, no error); `removeClient` on an absent key is
a no-op; and `addClient` immediately followed by `removeClient` for the
same address leaves the registry without that entry. -/
theorem registry_add_remove_spec (u : serverUDPListener) (ip : List Nat)
    (port : Int) (cb : Nat) (h : keysNodup u.clients) :
    keysNodup (u.addClient ip port cb).clients
    ∧ mapLookup (u.addClient ip port cb).clients
        (clientAddr.fill zeroClientAddr ip port) = some cb
    ∧ (mapLookup u.clients (clientAddr.fill zeroClientAddr ip port) = none →
        u.removeClient ip port = u)
    ∧ mapLookup ((u.addClient ip port cb).removeClient ip port).clients
        (clientAddr.fill zeroClientAddr ip port) = none := by
  refine ⟨keysNodup_mapInsert u.clients _ cb h, mapLookup_insert_self u.clients _ cb,
    fun h0 => ?_, ?_⟩
  · cases u with
    | mk c => simp [serverUDPListener.removeClient, mapDelete_of_lookup_none c _ h0]
  · exact mapLookup_mapDelete_self _ _ (keysNodup_mapInsert u.clients _ cb h)

/-- Witness for `registry_add_remove_spec` on an initially empty
registry. -/
theorem registry_add_remove_spec_witness :
    ((serverUDPListener.mk []).removeClient [10, 0, 0, 1] 9000 = serverUDPListener.mk [])
    ∧ mapLookup (((serverUDPListener.mk []).addClient [10, 0, 0, 1] 9000 7).removeClient
        [10, 0, 0, 1] 9000).clients
        (clientAddr.fill zeroClientAddr [10, 0, 0, 1] 9000) = none :=
  ⟨(registry_add_remove_spec (serverUDPListener.mk []) [10, 0, 0, 1] 9000 7
      (by simp [keysNodup])).2.2.1 (by decide),
   (registry_add_remove_spec (serverUDPListener.mk []) [10, 0, 0, 1] 9000 7
      (by simp [keysNodup])).2.2.2⟩

/-- C1: on a successful read of `n` bytes of `buf` from `(ip, port)`,
one loop iteration builds the key with `fill`, looks it up, and, when a
handler is registered, dispatches to it exactly the `n` bytes read (a
payload of length `n`, not the full buffer); when no handler is
registered, the datagram is discarded with no dispatch and the loop does
not exit. -/
theorem run_dispatch_spec (u : serverUDPListener) (n : Nat) (ip : List Nat)
    (port : Int) (buf : List Nat) (hn : n ≤ buf.length) :
    (∀ cb, mapLookup u.clients (clientAddr.fill zeroClientAddr ip port) = some cb →
      runIteration u (some (n, ip, port, buf)) = .dispatched cb (buf.take n)
      ∧ (buf.take n).length = n)
    ∧ (mapLookup u.clients (clientAddr.fill zeroClientAddr ip port) = none →
      runIteration u (some (n, ip, port, buf)) = .discarded
      ∧ runIteration u (some (n, ip, port, buf)) ≠ .exited
      ∧ ∀ cb payload,
          runIteration u (some (n, ip, port, buf)) ≠ .dispatched cb payload) := by
  constructor
  · intro cb hcb
    refine ⟨by simp [runIteration, hcb], ?_⟩
    simp [List.length_take, min_eq_left hn]
  · intro hnone
    refine ⟨by simp [runIteration, hnone], by simp [runIteration, hnone], ?_⟩
    intro cb payload
    simp [runIteration, hnone]

/-- Witness for `run_dispatch_spec`: a registered peer receives exactly
the 4 bytes read out of a 5-byte buffer. -/
theorem run_dispatch_spec_witness :
    runIteration
      (serverUDPListener.mk [(clientAddr.fill zeroClientAddr [127, 0, 0, 1] 5000, 3)])
      (some (4, [127, 0, 0, 1], 5000, [9, 8, 7, 6, 5]))
      = .dispatched 3 [9, 8, 7, 6]
    ∧ ([9, 8, 7, 6, 5].take 4).length = 4 :=
  (run_dispatch_spec
      (serverUDPListener.mk [(clientAddr.fill zeroClientAddr [127, 0, 0, 1] 5000, 3)])
      4 [127, 0, 0, 1] 5000 [9, 8, 7, 6, 5] (by decide)).1 3 (by decide)

/-- Go `net.FlagMulticast` (bit 4 of `net.Flags`). -/
def flagMulticast : Nat := 16

/-- Go `net.Interface` as seen by `joinMulticastGroupOnAtLeastOneInterface`:
its flag bits, together with an oracle recording whether
`p.JoinGroup(&intf, ...)` would return an error on this interface. -/
structure netInterface where
  flags : Nat
  joinErr : Bool
deriving DecidableEq, Repr

/-- Result of `joinMulticastGroupOnAtLeastOneInterface`: success, the
error of `net.Interfaces()` passed through, or the function's own
"unable to activate multicast on any network interface" error. -/
inductive MulticastJoinResult
  | ok
  | interfacesError
  | noMulticastInterface
deriving DecidableEq, Repr

/-- Go func `joinMulticastGroupOnAtLeastOneInterface` (lines 26-48), the
OS modelled as an oracle: `intfs` is the outcome of `net.Interfaces()`
(an error, or the interface list).  The loop sets `success` on each
multicast-flagged interface whose join returns no error, and the
function fails iff `success` stays false. -/
def joinMulticastGroupOnAtLeastOneInterface
    (intfs : Except Unit (List netInterface)) : MulticastJoinResult :=
  match intfs with
  | .error _ => .interfacesError
  | .ok l =>
    let success := l.foldl
      (fun success intf =>
        if intf.flags.land flagMulticast ≠ 0 then
          (if intf.joinErr then success else true)
        else success) false
    if !success then .noMulticastInterface else .ok

theorem joinFold_eq_any (l : List netInterface) (acc : Bool) :
    l.foldl
      (fun success intf =>
        if intf.flags.land flagMulticast ≠ 0 then
          (if intf.joinErr then success else true)
        else success) acc
    = (acc || l.any fun intf =>
        decide (intf.flags.land flagMulticast ≠ 0) && !intf.joinErr) := by
  induction l generalizing acc with
  | nil => simp
  | cons hd tl ih =>
    rw [List.foldl_cons, ih, List.any_cons]
    by_cases h1 : hd.flags.land flagMulticast ≠ 0
    · by_cases h2 : hd.joinErr <;> simp [h1, h2, Bool.or_assoc]
    · simp [h1, Bool.or_assoc]

/-- C7: for every list of interfaces, the multicast join succeeds iff at
least one multicast-flagged interface's join attempt succeeded, and
returns the no-multicast-interface error iff no such interface exists
(including when no interface is multicast-flagged at all). -/
theorem join_multicast_iff (l : List netInterface) :
    (joinMulticastGroupOnAtLeastOneInterface (.ok l) = .ok
      ↔ ∃ intf ∈ l, intf.flags.land flagMulticast ≠ 0 ∧ intf.joinErr = false)
    ∧ (joinMulticastGroupOnAtLeastOneInterface (.ok l) = .noMulticastInterface
      ↔ ¬ ∃ intf ∈ l, intf.flags.land flagMulticast ≠ 0 ∧ intf.joinErr = false) := by
  simp only [joinMulticastGroupOnAtLeastOneInterface, joinFold_eq_any, Bool.false_or]
  cases hany : l.any fun intf =>
      decide (intf.flags.land flagMulticast ≠ 0) && !intf.joinErr with
  | false =>
    rw [List.any_eq_false] at hany
    have hex : ¬ ∃ intf ∈ l, intf.flags.land flagMulticast ≠ 0 ∧ intf.joinErr = false := by
      rintro ⟨intf, hmem, hflag, herr⟩
      have := hany intf hmem
      simp [hflag, herr] at this
    simp [hex]
  | true =>
    rw [List.any_eq_true] at hany
    obtain ⟨intf, hmem, hgood⟩ := hany
    simp only [Bool.and_eq_true, decide_eq_true_eq, Bool.not_eq_true'] at hgood
    have hex : ∃ intf ∈ l, intf.flags.land flagMulticast ≠ 0 ∧ intf.joinErr = false :=
      ⟨intf, hmem, hgood.1, hgood.2⟩
    simp [hex]

/-- Outcome of `newServerUDPListenerMulticastPair`: the returned value
(an error, or the two listener identifiers) together with which inner
listeners were successfully constructed and whether `rtpl.close()` was
called. -/
structure PairOutcome where
  result : Except Nat (Nat × Nat)
  rtpCreated : Bool
  rtcpCreated : Bool
  rtpClosed : Bool
deriving Repr

/-- Go func `newServerUDPListenerMulticastPair` (lines 76-105), with the
two inner `newServerUDPListener` calls modelled as oracles `r1` (the RTP
bind) and `r2` (the RTCP bind), each an error or a listener identifier:
if the RTP bind fails its error is returned at once; if the RTCP bind
fails, `rtpl.close()` is called and the error is returned; otherwise
both listeners are returned. -/
def newServerUDPListenerMulticastPair (r1 r2 : Except Nat Nat) : PairOutcome :=
  match r1 with
  | .error e => ⟨.error e, false, false, false⟩
  | .ok rtpl =>
    match r2 with
    | .error e => ⟨.error e, true, false, true⟩
    | .ok rtcpl => ⟨.ok (rtpl, rtcpl), true, true, false⟩

/-- C8: if the RTP bind fails, its error is returned and neither
listener is created (nothing to close); if the RTP bind succeeds and the
RTCP bind fails, the RTP listener is closed and the RTCP error is
returned, so no successfully bound socket is left open on a partial
failure. -/
theorem multicast_pair_no_leak (r1 r2 : Except Nat Nat) :
    (∀ e, r1 = .error e →
      newServerUDPListenerMulticastPair r1 r2
        = ⟨.error e, false, false, false⟩)
    ∧ (∀ rtpl e, r1 = .ok rtpl → r2 = .error e →
      (newServerUDPListenerMulticastPair r1 r2).result = .error e
      ∧ (newServerUDPListenerMulticastPair r1 r2).rtpCreated = true
      ∧ (newServerUDPListenerMulticastPair r1 r2).rtpClosed = true
      ∧ (newServerUDPListenerMulticastPair r1 r2).rtcpCreated = false) := by
  constructor
  · rintro e rfl
    rfl
  · rintro rtpl e rfl rfl
    exact ⟨rfl, rfl, rfl, rfl⟩

/-- Witness for `multicast_pair_no_leak`: a failing RTP bind, and a
failing RTCP bind after a successful RTP bind. -/
theorem multicast_pair_no_leak_witness :
    newServerUDPListenerMulticastPair (.error 42) (.ok 1)
      = ⟨.error 42, false, false, false⟩
    ∧ (newServerUDPListenerMulticastPair (.ok 1) (.error 7)).result = .error 7
    ∧ (newServerUDPListenerMulticastPair (.ok 1) (.error 7)).rtpClosed = true :=
  ⟨(multicast_pair_no_leak (.error 42) (.ok 1)).1 42 rfl,
   ((multicast_pair_no_leak (.ok 1) (.error 7)).2 1 7 rfl rfl).1,
   ((multicast_pair_no_leak (.ok 1) (.error 7)).2 1 7 rfl rfl).2.2.1⟩

/-- Steps performed by `newServerUDPListener` (lines 107-167), used both
as trace entries and as error identifiers. -/
inductive BindStep
  | splitHostPort
  | listenPacket
  | setMulticastTTL
  | joinGroup
  | setReadBuffer
  | startRun
  | closeSocket
deriving DecidableEq, Repr

/-- Oracle for the OS calls made by `newServerUDPListener`: whether each
fallible call would succeed, and the interface list seen by the
multicast join. -/
structure BindEnv where
  splitHostPortOk : Bool
  listenPacketOk : Bool
  ttlOk : Bool
  intfs : Except Unit (List netInterface)
  readBufferOk : Bool
deriving Repr

/-- Go func `newServerUDPListener` (lines 107-167) over the oracle
`env`, returning the failing step (or `none` on success) and the trace
of calls performed, in order.  The multicast path splits the address,
opens the socket, sets the TTL, joins the group; both paths then set the
kernel read buffer and, on success only, start the `run` goroutine.  No
path ever closes the socket. -/
def newServerUDPListener (env : BindEnv) (multicast : Bool) :
    Option BindStep × List BindStep :=
  if multicast then
    if !env.splitHostPortOk then (some .splitHostPort, [.splitHostPort])
    else if !env.listenPacketOk then
      (some .listenPacket, [.splitHostPort, .listenPacket])
    else if !env.ttlOk then
      (some .setMulticastTTL, [.splitHostPort, .listenPacket, .setMulticastTTL])
    else if joinMulticastGroupOnAtLeastOneInterface env.intfs ≠ .ok then
      (some .joinGroup,
        [.splitHostPort, .listenPacket, .setMulticastTTL, .joinGroup])
    else if !env.readBufferOk then
      (some .setReadBuffer,
        [.splitHostPort, .listenPacket, .setMulticastTTL, .joinGroup, .setReadBuffer])
    else
      (none,
        [.splitHostPort, .listenPacket, .setMulticastTTL, .joinGroup, .setReadBuffer,
         .startRun])
  else
    if !env.listenPacketOk then (some .listenPacket, [.listenPacket])
    else if !env.readBufferOk then
      (some .setReadBuffer, [.listenPacket, .setReadBuffer])
    else (none, [.listenPacket, .setReadBuffer, .startRun])

/-- C9: in both the multicast and the unicast path, construction
performs the read-buffer call whenever the earlier steps succeed, and a
failing read-buffer call makes construction fail with an error and keeps
the `run` goroutine from being started. -/
theorem read_buffer_failure_fatal (env : BindEnv)
    (h1 : env.splitHostPortOk = true) (h2 : env.listenPacketOk = true)
    (h3 : env.ttlOk = true)
    (h4 : joinMulticastGroupOnAtLeastOneInterface env.intfs = .ok) :
    (BindStep.setReadBuffer ∈ (newServerUDPListener env true).2
      ∧ BindStep.setReadBuffer ∈ (newServerUDPListener env false).2)
    ∧ (env.readBufferOk = false →
      (newServerUDPListener env true).1 = some .setReadBuffer
      ∧ (newServerUDPListener env false).1 = some .setReadBuffer
      ∧ BindStep.startRun ∉ (newServerUDPListener env true).2
      ∧ BindStep.startRun ∉ (newServerUDPListener env false).2) := by
  cases hrb : env.readBufferOk with
  | false => simp [newServerUDPListener, h1, h2, h3, h4, hrb]
  | true => simp [newServerUDPListener, h1, h2, h3, h4, hrb]

/-- Witness for `read_buffer_failure_fatal`: a failing read-buffer call
after every earlier step succeeded. -/
theorem read_buffer_failure_fatal_witness :
    (newServerUDPListener
        ⟨true, true, true, .ok [⟨16, false⟩], false⟩ true).1
      = some .setReadBuffer
    ∧ (newServerUDPListener
        ⟨true, true, true, .ok [⟨16, false⟩], false⟩ false).1
      = some .setReadBuffer
    ∧ BindStep.startRun ∉ (newServerUDPListener
        ⟨true, true, true, .ok [⟨16, false⟩], false⟩ true).2
    ∧ BindStep.startRun ∉ (newServerUDPListener
        ⟨true, true, true, .ok [⟨16, false⟩], false⟩ false).2 :=
  (read_buffer_failure_fatal ⟨true, true, true, .ok [⟨16, false⟩], false⟩
      rfl rfl rfl (by decide)).2 rfl

/-- C10: whenever the socket open succeeds and a later construction step
fails — setting the multicast TTL, joining the multicast group, or
setting the read buffer, in either path — `newServerUDPListener` returns
that step's error while the trace contains the successful socket open
and no close of the socket: the handle is leaked. -/
theorem construction_failure_leaks_socket (env : BindEnv)
    (h2 : env.listenPacketOk = true) :
    (env.splitHostPortOk = true → env.ttlOk = false →
      (newServerUDPListener env true).1 = some .setMulticastTTL
      ∧ BindStep.listenPacket ∈ (newServerUDPListener env true).2
      ∧ BindStep.closeSocket ∉ (newServerUDPListener env true).2)
    ∧ (env.splitHostPortOk = true → env.ttlOk = true →
        joinMulticastGroupOnAtLeastOneInterface env.intfs ≠ .ok →
      (newServerUDPListener env true).1 = some .joinGroup
      ∧ BindStep.listenPacket ∈ (newServerUDPListener env true).2
      ∧ BindStep.closeSocket ∉ (newServerUDPListener env true).2)
    ∧ (env.splitHostPortOk = true → env.ttlOk = true →
        joinMulticastGroupOnAtLeastOneInterface env.intfs = .ok →
        env.readBufferOk = false →
      (newServerUDPListener env true).1 = some .setReadBuffer
      ∧ BindStep.listenPacket ∈ (newServerUDPListener env true).2
      ∧ BindStep.closeSocket ∉ (newServerUDPListener env true).2)
    ∧ (env.readBufferOk = false →
      (newServerUDPListener env false).1 = some .setReadBuffer
      ∧ BindStep.listenPacket ∈ (newServerUDPListener env false).2
      ∧ BindStep.closeSocket ∉ (newServerUDPListener env false).2) := by
  refine ⟨fun hs ht => ?_, fun hs ht hj => ?_, fun hs ht hj hr => ?_, fun hr => ?_⟩
  · simp [newServerUDPListener, hs, h2, ht]
  · simp [newServerUDPListener, hs, h2, ht, hj]
  · simp [newServerUDPListener, hs, h2, ht, hj, hr]
  · simp [newServerUDPListener, h2, hr]

/-- Witness for `construction_failure_leaks_socket`: a failing TTL call
after a successful socket open leaks the socket. -/
theorem construction_failure_leaks_socket_witness :
    (newServerUDPListener ⟨true, true, false, .ok [⟨16, false⟩], true⟩ true).1
      = some .setMulticastTTL
    ∧ BindStep.listenPacket
        ∈ (newServerUDPListener ⟨true, true, false, .ok [⟨16, false⟩], true⟩ true).2
    ∧ BindStep.closeSocket
        ∉ (newServerUDPListener ⟨true, true, false, .ok [⟨16, false⟩], true⟩ true).2 :=
  (construction_failure_leaks_socket ⟨true, true, false, .ok [⟨16, false⟩], true⟩
      rfl).1 rfl rfl

/-- Phase of the `run` goroutine: inside its read loop, or exited. -/
inductive LoopPhase
  | running
  | exited
deriving DecidableEq, Repr

/-- Phase of the single caller of `close()` (lines 169-172): not yet
called, socket closed and blocked on `<-u.done`, or returned. -/
inductive ClosePhase
  | notCalled
  | waiting
  | returned
deriving DecidableEq, Repr

/-- Interleaving state of one listener: the socket, the queue of
pending read results, the `run` goroutine's phase, the `done` channel
(number of times `close(u.done)` has run), the `close()` caller's phase,
and the observable loop events so far. -/
structure SysState where
  socketClosed : Bool
  reads : List (Option (Nat × List Nat × Int × List Nat))
  loopPhase : LoopPhase
  doneCount : Nat
  closePhase : ClosePhase
  events : List LoopStep
deriving DecidableEq, Repr

/-- Interleaved small-step semantics of the `run` goroutine (lines
182-206) and a single caller of `close()` (lines 169-172) over the
registry `u`.  While the socket is open a pending datagram is dispatched
or discarded exactly as in `run`; a read error — in particular the one
every read yields once the socket is closed — breaks the loop, upon
which the deferred `close(u.done)` fires; `close()` first closes the
socket and then returns only once `done` has fired. -/
inductive Step (u : serverUDPListener) : SysState → SysState → Prop
  | readDispatch (s : SysState) (n : Nat) (ip : List Nat) (port : Int)
      (buf : List Nat) (rest : List (Option (Nat × List Nat × Int × List Nat)))
      (cb : Nat) :
      s.loopPhase = .running → s.socketClosed = false →
      s.reads = some (n, ip, port, buf) :: rest →
      mapLookup u.clients (clientAddr.fill zeroClientAddr ip port) = some cb →
      Step u s { s with reads := rest, events := s.events ++ [.dispatched cb (buf.take n)] }
  | readDiscard (s : SysState) (n : Nat) (ip : List Nat) (port : Int)
      (buf : List Nat) (rest : List (Option (Nat × List Nat × Int × List Nat))) :
      s.loopPhase = .running → s.socketClosed = false →
      s.reads = some (n, ip, port, buf) :: rest →
      mapLookup u.clients (clientAddr.fill zeroClientAddr ip port) = none →
      Step u s { s with reads := rest }
  | readError (s : SysState) :
      s.loopPhase = .running →
      (s.socketClosed = true ∨ ∃ rest, s.reads = none :: rest) →
      Step u s { s with loopPhase := .exited, doneCount := s.doneCount + 1 }
  | closeCall (s : SysState) :
      s.closePhase = .notCalled →
      Step u s { s with socketClosed := true, closePhase := .waiting }
  | closeReturn (s : SysState) :
      s.closePhase = .waiting → 1 ≤ s.doneCount →
      Step u s { s with closePhase := .returned }

/-- Initial state of a freshly constructed listener: loop running,
`done` not fired, `close()` not yet called, socket open. -/
def InitState (s : SysState) : Prop :=
  s.loopPhase = .running ∧ s.doneCount = 0 ∧ s.closePhase = .notCalled
    ∧ s.socketClosed = false

/-- Inductive invariant of the listener system: the termination signal
has fired exactly once iff the loop has exited, it never fires twice,
and `close()` cannot have returned before the loop exited. -/
def SysInv (s : SysState) : Prop :=
  (s.loopPhase = .exited ↔ s.doneCount = 1)
  ∧ s.doneCount ≤ 1
  ∧ (s.closePhase = .returned → s.loopPhase = .exited)

theorem sysInv_init (s : SysState) (h : InitState s) : SysInv s := by
  obtain ⟨h1, h2, h3, _⟩ := h
  refine ⟨?_, ?_, ?_⟩ <;> simp [h1, h2, h3]

theorem sysInv_step (u : serverUDPListener) (s s1 : SysState)
    (hinv : SysInv s) (hstep : Step u s s1) : SysInv s1 := by
  obtain ⟨h1, h2, h3⟩ := hinv
  cases hstep with
  | readDispatch n ip port buf rest cb hrun hsock hreads hcb =>
    exact ⟨h1, h2, h3⟩
  | readDiscard n ip port buf rest hrun hsock hreads hcb =>
    exact ⟨h1, h2, h3⟩
  | readError hrun hcond =>
    have hc0 : s.doneCount = 0 := by
      have : ¬ s.doneCount = 1 := fun hc => by
        have := h1.mpr hc
        rw [hrun] at this
        exact LoopPhase.noConfusion this
      omega
    refine ⟨by simp [hc0], by simp [hc0], fun _ => rfl⟩
  | closeCall hc =>
    refine ⟨h1, h2, fun hr => ?_⟩
    exact ClosePhase.noConfusion hr
  | closeReturn hw hd =>
    have hc1 : s.doneCount = 1 := by omega
    exact ⟨h1, h2, fun _ => h1.mpr hc1⟩

theorem sysInv_reachable (u : serverUDPListener) (s0 s : SysState)
    (h0 : InitState s0) (hr : Relation.ReflTransGen (Step u) s0 s) :
    SysInv s := by
  induction hr with
  | refl => exact sysInv_init s0 h0
  | tail hab hbc ih => exact sysInv_step u _ _ ih hbc

theorem no_step_after_returned (u : serverUDPListener) (s s1 : SysState)
    (hinv : SysInv s) (hret : s.closePhase = .returned)
    (hstep : Step u s s1) : False := by
  obtain ⟨h1, h2, h3⟩ := hinv
  have hex := h3 hret
  cases hstep with
  | readDispatch n ip port buf rest cb hrun hsock hreads hcb =>
    rw [hrun] at hex
    exact LoopPhase.noConfusion hex
  | readDiscard n ip port buf rest hrun hsock hreads hcb =>
    rw [hrun] at hex
    exact LoopPhase.noConfusion hex
  | readError hrun hcond =>
    rw [hrun] at hex
    exact LoopPhase.noConfusion hex
  | closeCall hc =>
    rw [hret] at hc
    exact ClosePhase.noConfusion hc
  | closeReturn hw hd =>
    rw [hret] at hw
    exact ClosePhase.noConfusion hw

/-- C2: in every state reachable from a fresh listener, the termination
signal has fired exactly once iff the loop has exited and never more
than once, however the loop ended; once `close()` has returned the loop
has exited, the signal has fired, and no further step — in particular no
registry lookup or handler invocation — is possible; and from a state
whose pending read is an error, every loop step exits the loop (the only
other enabled steps belong to the close protocol). -/
theorem close_rendezvous_spec (u : serverUDPListener) (s0 s s1 : SysState)
    (h0 : InitState s0) (hr : Relation.ReflTransGen (Step u) s0 s) :
    ((s.loopPhase = .exited ↔ s.doneCount = 1) ∧ s.doneCount ≤ 1)
    ∧ (s.closePhase = .returned →
        s.loopPhase = .exited ∧ s.doneCount = 1 ∧ ¬ Step u s s1)
    ∧ (∀ rest, s.loopPhase = .running → s.reads = none :: rest →
        Step u s s1 → s1.loopPhase = .exited ∨ s1.closePhase ≠ s.closePhase) := by
  obtain ⟨h1, h2, h3⟩ := sysInv_reachable u s0 s h0 hr
  refine ⟨⟨h1, h2⟩, fun hret => ⟨h3 hret, h1.mp (h3 hret),
    fun hstep => no_step_after_returned u s s1 ⟨h1, h2, h3⟩ hret hstep⟩, ?_⟩
  intro rest hrun hreads hstep
  cases hstep with
  | readDispatch n ip port buf rest1 cb hrun1 hsock hreads1 hcb =>
    rw [hreads] at hreads1
    exact absurd (List.head_eq_of_cons_eq hreads1) (by simp)
  | readDiscard n ip port buf rest1 hrun1 hsock hreads1 hcb =>
    rw [hreads] at hreads1
    exact absurd (List.head_eq_of_cons_eq hreads1) (by simp)
  | readError hrun1 hcond =>
    exact Or.inl rfl
  | closeCall hc =>
    refine Or.inr ?_
    rw [hc]
    simp
  | closeReturn hw hd =>
    refine Or.inr ?_
    rw [hw]
    simp

/-- Witness for `close_rendezvous_spec` at a concrete initial state with
a pending read error. -/
theorem close_rendezvous_spec_witness :
    (((⟨false, [none], .running, 0, .notCalled, []⟩ : SysState).loopPhase = .exited
        ↔ (⟨false, [none], .running, 0, .notCalled, []⟩ : SysState).doneCount = 1)
      ∧ (⟨false, [none], .running, 0, .notCalled, []⟩ : SysState).doneCount ≤ 1) :=
  (close_rendezvous_spec ⟨[]⟩ ⟨false, [none], .running, 0, .notCalled, []⟩
      ⟨false, [none], .running, 0, .notCalled, []⟩
      ⟨false, [none], .running, 0, .notCalled, []⟩
      ⟨rfl, rfl, rfl, rfl⟩ Relation.ReflTransGen.refl).1
